import Mathlib

/-!
Verification development for the Mountaineer reconciliation engine
(`crates/mountaineer/src/engine.rs`, `config.rs`, `mount/smb.rs`, `main.rs`).

The Rust code is shallowly embedded: pure decision functions are translated
directly; effectful OS interactions (mount/unmount subprocesses, symlink
syscalls, file writes) are modelled as explicit state transitions over small
state types, with oracles supplying the outcomes of fallible external
operations.  Times are modelled as integer seconds (`chrono` timestamps and
`num_seconds` arithmetic), error text as `String`.

Two items referenced by `engine.rs` are not present in the provided sources
(`config::backend_mount_path` and the `single_mount_mode` global); they are
modelled from the specification, as marked on their declarations.
-/

namespace Mountaineer

/-- `config::Backend`: the two network paths to the same share
(`Tb` is the Thunderbolt/primary path). -/
inductive Backend
  | tb
  | fallback
deriving DecidableEq, Repr

/-- `engine::ShareRuntimeState`: the per-share persisted runtime entry.
Timestamps are integer seconds. -/
structure ShareRuntimeState where
  active_backend : Option Backend := none
  last_switch_at : Option Int := none
  tb_reachable_since : Option Int := none
  tb_healthy_since : Option Int := none
  last_error : Option String := none
  tb_recovery_pending : Bool := false
deriving DecidableEq, Repr

/-- `engine::BackendStatus` (the `host` and `mount_point` display strings are
elided; they are copies of the inputs and carry no logic). -/
structure BackendStatus where
  reachable : Bool
  mounted : Bool
  alive : Bool
  ready : Bool
  last_error : Option String
deriving DecidableEq, Repr

/-- Rust `Option::or`: first operand when `some`, otherwise the second. -/
def optionOr (a b : Option Backend) : Option Backend :=
  match a with
  | some x => some x
  | none => b

/-- `(now - since).num_seconds().max(0) as u64` for integer-second timestamps. -/
def stable_for (now since : Int) : Nat := (max (now - since) 0).toNat

/-- `engine::choose_desired_backend` (dual-mount variant, readiness based). -/
def choose_desired_backend (active : Option Backend)
    (tb_ready fb_ready auto_failback : Bool)
    (tb_stability_since : Option Int)
    (failback_stable_secs : Nat) (now : Int) : Option Backend :=
  match active with
  | some Backend.tb =>
      if tb_ready then some Backend.tb
      else
        -- prefer fallback intent even before fallback is fully ready
        some Backend.fallback
  | some Backend.fallback =>
      if !fb_ready then
        if tb_ready then some Backend.tb else some Backend.fallback
      else if tb_ready && auto_failback then
        match tb_stability_since with
        | some since =>
            if failback_stable_secs ≤ stable_for now since then some Backend.tb
            else some Backend.fallback
        | none => some Backend.fallback
      else some Backend.fallback
  | none =>
      if tb_ready then some Backend.tb
      else if fb_ready then some Backend.fallback
      else none

/-- `engine::choose_desired_backend_single_mount`: the single-mount desired
backend decision, reachability based. -/
def choose_desired_backend_single_mount (active : Option Backend)
    (tb_reachable fb_reachable auto_failback : Bool)
    (tb_stability_since : Option Int)
    (failback_stable_secs : Nat) (now : Int) : Option Backend :=
  match active with
  | some Backend.tb =>
      if tb_reachable then some Backend.tb else some Backend.fallback
  | some Backend.fallback =>
      if !fb_reachable then
        if tb_reachable then some Backend.tb else some Backend.fallback
      else if tb_reachable && auto_failback then
        match tb_stability_since with
        | some since =>
            if failback_stable_secs ≤ stable_for now since then some Backend.tb
            else some Backend.fallback
        | none => some Backend.fallback
      else some Backend.fallback
  | none =>
      if tb_reachable then some Backend.tb
      else if fb_reachable then some Backend.fallback
      else none

/-- Spec-side restatement of §4.6 Step D, written from the claim's words over
boolean inputs, for comparison with `choose_desired_backend_single_mount`. -/
def stepD_desired (active : Option Backend)
    (primary_r fallback_r auto_failback stable_elapsed : Bool) : Option Backend :=
  match active with
  | none =>
      if primary_r then some Backend.tb
      else if fallback_r then some Backend.fallback
      else none
  | some Backend.tb =>
      if primary_r then some Backend.tb else some Backend.fallback
  | some Backend.fallback =>
      if (!fallback_r && primary_r) || (primary_r && auto_failback && stable_elapsed) then
        some Backend.tb
      else some Backend.fallback

/-- The claim's "stability window elapsed" input, computed from the stability
timestamp exactly as the code computes it. -/
def stable_elapsed (tb_stability_since : Option Int)
    (failback_stable_secs : Nat) (now : Int) : Bool :=
  match tb_stability_since with
  | some since => decide (failback_stable_secs ≤ stable_for now since)
  | none => false

/-! ## Mount-table model

Modelled from the spec: `config::backend_mount_path` is not under the provided
sources (only its callers in `engine.rs` are).  Per spec §6 both backends use
the single OS-managed path `/Volumes/<remote_share_name>` ("Both backends use
this single path"), as also stated by the doc comment of
`config::volume_mount_path`.  The mount table at that single path is modelled
as the list of backends whose host currently backs a mount there;
`is_mounted` is emptiness of that list.  Mounting at an already-mounted path
fails as an OS collision ("File exists", spec §7 benign mount collision). -/

/-- A mount table at the share's single mount path: the backends whose host
currently backs a mount there. -/
abbrev MountList := List Backend

/-- An OS mount-table operation issued by the engine. -/
inductive MOp
  | unmountGraceful
  | unmountForced
  | mountShare (b : Backend)
deriving DecidableEq, Repr

/-- Effect of an OS operation on the mount table, given the oracle outcome
`ok` of the underlying subprocess.  A mount at a non-empty (already mounted)
path is the OS collision failure and leaves the table unchanged. -/
def applyOp : MOp → Bool → MountList → MountList
  | MOp.unmountGraceful, ok, s => if ok then [] else s
  | MOp.unmountForced, ok, s => if ok then [] else s
  | MOp.mountShare b, ok, s => if s.isEmpty && ok then [b] else s

/-- One OS mount-table operation together with the table before and after. -/
structure TraceEntry where
  op : MOp
  pre : MountList
  post : MountList
deriving DecidableEq, Repr

/-- At most one backend is mounted. -/
def singleMount (l : MountList) : Prop := l.length ≤ 1

/-- The backends passed to `mount_share` along a trace, in order. -/
def mountAttempts (tr : List TraceEntry) : List Backend :=
  tr.filterMap fun e =>
    match e.op with
    | MOp.mountShare b => some b
    | _ => none

/-- The system state a single share's engine code acts on: the mount table at
the share's single mount path, whether the stable symlink
`<shares_root>/<name>` is present (it can only point at that single mount
path), and the share's runtime entry. -/
structure SysState where
  fs : MountList
  symlink : Bool
  entry : ShareRuntimeState
deriving DecidableEq, Repr

/-- `engine::SwitchResult`. -/
inductive SwitchResult
  | success
  | busyOpenFiles
  | unmountFailed (error : String)
  | mountFailed (rolled_back : Bool) (error : String)
deriving DecidableEq, Repr

/-- Outcomes of the external operations a single
`switch_backend_single_mount` call can perform. -/
structure SwitchOracle where
  /-- `has_open_handles(from_mount)`. -/
  openHandles : Bool
  /-- outcome of `unmount` / `unmount_graceful` on the old backend. -/
  unmountOk : Bool
  /-- outcome of `mount_share` for the new backend. -/
  mountOk : Bool
  /-- outcome of the rollback `mount_share` for the old backend. -/
  rollbackOk : Bool
  /-- outcome of `set_symlink_atomically` after a successful mount
  (a failure is logged and ignored; modelled as leaving the link as it was). -/
  symlinkOk : Bool
  /-- outcome of the rollback `set_symlink_atomically` (result discarded). -/
  rollbackSymlinkOk : Bool
  /-- display text of the unmount error. -/
  unmountErr : String
  /-- display text of the mount error. -/
  mountErr : String
deriving DecidableEq, Repr

/-- `engine::switch_backend_single_mount`, lines 238-349: unmount old → mount
new → update symlink, with rollback if the new mount fails.  Returns the
result, the final state, and the trace of OS mount-table operations.  The
`is_mount_alive` check after a successful mount and all logging are elided
(they only log); `mount_share`, `unmount` and `unmount_graceful` are external
driver calls whose outcomes the oracle supplies. -/
def switch_backend_single_mount (o : SwitchOracle) (fromB toB : Backend)
    (force : Bool) (now : Int) (s : SysState) :
    SwitchResult × SysState × List TraceEntry :=
  -- Step 1: check for open files (unless force)
  if !force && !s.fs.isEmpty && o.openHandles then
    (SwitchResult.busyOpenFiles, s, [])
  else
    -- Step 2: unmount old backend (if mounted); forced iff `force`
    let unmountOp := if force then MOp.unmountForced else MOp.unmountGraceful
    if !s.fs.isEmpty && !o.unmountOk then
      (SwitchResult.unmountFailed o.unmountErr, s, [⟨unmountOp, s.fs, s.fs⟩])
    else
      let unmountTrace : List TraceEntry :=
        if s.fs.isEmpty then [] else [⟨unmountOp, s.fs, []⟩]
      -- Step 3: mount new backend (the path is now unmounted)
      if o.mountOk then
        -- Step 4: update symlink, then commit runtime state
        (SwitchResult.success,
         { fs := [toB],
           symlink := o.symlinkOk || s.symlink,
           entry := { s.entry with
                        active_backend := some toB,
                        last_switch_at := some now,
                        tb_recovery_pending := false,
                        last_error := none } },
         unmountTrace ++ [⟨MOp.mountShare toB, [], [toB]⟩])
      else if o.rollbackOk then
        -- Step 5: rollback - remount old backend, restore symlink
        (SwitchResult.mountFailed true o.mountErr,
         { s with fs := [fromB], symlink := o.rollbackSymlinkOk || s.symlink },
         unmountTrace ++ [⟨MOp.mountShare toB, [], []⟩,
                          ⟨MOp.mountShare fromB, [], [fromB]⟩])
      else
        (SwitchResult.mountFailed false o.mountErr,
         { s with fs := [] },
         unmountTrace ++ [⟨MOp.mountShare toB, [], []⟩,
                          ⟨MOp.mountShare fromB, [], []⟩])

/-- `main::cmd_switch`, lines 224-251: whether the CLI persists runtime state
after the switch call (`save_runtime_state` is called on success, and on
mount failure only when the rollback succeeded). -/
def cmd_switch_saves_state : SwitchResult → Bool
  | SwitchResult.success => true
  | SwitchResult.mountFailed rolled_back _ => rolled_back
  | SwitchResult.busyOpenFiles => false
  | SwitchResult.unmountFailed _ => false

/-- Modelled from the spec: `config::backend_mount_path` is not under the
provided sources, and per spec §6 both backend mount targets are the same
single path; `engine::detect_active_backend` resolves the stable symlink and
compares it against the Tb target before the Fallback target, so a stable
symlink at the (shared) mount path is attributed to `Tb`. -/
def detect_active_backend (symlinkPresent : Bool) : Option Backend :=
  if symlinkPresent then some Backend.tb else none

/-- `engine::backend_ready`. -/
def backend_ready (desired : Backend) (tb fb : BackendStatus) : Bool :=
  match desired with
  | Backend.tb => tb.ready
  | Backend.fallback => fb.ready

/-- Outcomes of the external operations one `probe_backend` call can
perform. -/
structure ProbeOracle where
  /-- `discovery::is_smb_reachable_with_timeout`. -/
  reachable : Bool
  /-- first `is_mount_alive` on an existing mount. -/
  aliveInitial : Bool
  /-- outcome of the stale-mount unmount. -/
  staleUnmountOk : Bool
  /-- outcome of `mount_share` when a mount is attempted. -/
  mountOk : Bool
  /-- `is_mount_alive` directly after a successful mount. -/
  aliveAfterMount : Bool
  /-- whether a mount error message is a benign mount collision. -/
  benignCollision : Bool
  /-- final `is_mount_alive` retry when still mounted but not alive. -/
  aliveRecheck : Bool
  /-- display text of a stale-unmount error. -/
  staleErrMsg : String
  /-- display text of a mount error. -/
  mountErrMsg : String
deriving DecidableEq, Repr

/-- `engine::probe_backend`, lines 1021-1149: detect the current mount,
force-clean a stale mount, optionally attempt a mount (in single-mount mode
only when this backend is the active hint or no backend is active), and
report `BackendStatus`.  `is_mounted` is emptiness of the shared-path mount
table; logging is elided. -/
def probe_backend (po : ProbeOracle) (b : Backend) (attempt_mount : Bool)
    (active_backend : Option Backend) (single_mount_mode : Bool)
    (fs0 : MountList) : BackendStatus × MountList × List TraceEntry :=
  let reachable := po.reachable
  let mounted0 := !fs0.isEmpty
  let alive0 := mounted0 && po.aliveInitial
  -- stale mount: mounted but not alive; graceful unmount for the active
  -- backend, forced otherwise
  let staleOp := if active_backend = some b then MOp.unmountGraceful
                 else MOp.unmountForced
  let doStale := mounted0 && !alive0
  let fs1 := if doStale then applyOp staleOp po.staleUnmountOk fs0 else fs0
  let mounted1 := if doStale then
                    (if po.staleUnmountOk then false else mounted0)
                  else mounted0
  let staleErr : Option String :=
    if doStale && !po.staleUnmountOk then some po.staleErrMsg else none
  let tr1 : List TraceEntry := if doStale then [⟨staleOp, fs0, fs1⟩] else []
  -- in single-mount mode, only mount if this is the active backend (or no
  -- backend is active yet)
  let should_mount : Bool :=
    if single_mount_mode then
      attempt_mount &&
        (decide (active_backend = none) || decide (active_backend = some b))
    else attempt_mount
  let doMount := should_mount && reachable && !mounted1
  let mountOkEff := fs1.isEmpty && po.mountOk
  let fs2 := if doMount then applyOp (MOp.mountShare b) po.mountOk fs1 else fs1
  let tr2 : List TraceEntry := if doMount then [⟨MOp.mountShare b, fs1, fs2⟩] else []
  let mounted2 := if doMount && mountOkEff then !fs2.isEmpty else mounted1
  let aliveMid := if doMount && mountOkEff then mounted2 && po.aliveAfterMount
                  else alive0
  let mountErr : Option String :=
    if doMount && !mountOkEff then
      (if po.benignCollision then none else some po.mountErrMsg)
    else none
  let aliveFinal := if mounted2 && !aliveMid then po.aliveRecheck else aliveMid
  let ready := reachable && mounted2 && aliveFinal
  (⟨reachable, mounted2, aliveFinal, ready,
    match staleErr with
    | some e => some e
    | none => mountErr⟩,
   fs2, tr1 ++ tr2)

/-- `engine.rs` lines 652-677: update the TB reachability/health windows in
the runtime entry. -/
def update_tb_windows (tbStatus : BackendStatus) (now : Int)
    (entry : ShareRuntimeState) : ShareRuntimeState :=
  let e1 :=
    if tbStatus.reachable then
      (if entry.tb_reachable_since = none then
        { entry with tb_reachable_since := some now }
       else entry)
    else
      { entry with tb_reachable_since := none, tb_recovery_pending := false }
  if tbStatus.ready then
    (if e1.tb_healthy_since = none then { e1 with tb_healthy_since := some now }
     else e1)
  else { e1 with tb_healthy_since := none }

/-- `engine.rs` lines 672-677: the combined TB stability timestamp
(`min` of the reachable-since and healthy-since stamps). -/
def tb_stability_since (entry : ShareRuntimeState) : Option Int :=
  match entry.tb_reachable_since, entry.tb_healthy_since with
  | some reach, some healthy => some (min reach healthy)
  | some reach, none => some reach
  | none, some healthy => some healthy
  | none, none => none

/-- The per-share global tunables used by `reconcile_share`.  The field
`single_mount_mode` is modelled from the spec: `engine.rs` reads
`config.global.single_mount_mode` but the provided `config::GlobalConfig`
does not declare it; the spec describes only single-mount operation. -/
structure Globals where
  auto_failback : Bool
  auto_failback_stable_secs : Nat
  single_mount_mode : Bool
deriving DecidableEq, Repr

/-- Outcomes of the external operations one `reconcile_share` call can
perform (two probes, up to one switch, or an initial mount). -/
structure ReconcileOracle where
  tbProbe : ProbeOracle
  fbProbe : ProbeOracle
  /-- oracle for a failover switch invocation. -/
  sw : SwitchOracle
  /-- oracle for an auto-failback switch invocation. -/
  sw2 : SwitchOracle
  /-- outcome of the initial `mount_share` in the no-active branch. -/
  initialMountOk : Bool
  /-- outcome of `set_symlink_atomically` after the initial mount. -/
  initialSymlinkOk : Bool
  /-- display text of the initial mount error. -/
  initialErr : String
  /-- outcome of `set_symlink_atomically` in the dual-mount branch. -/
  dualSymlinkOk : Bool
deriving DecidableEq, Repr

/-- `engine.rs` lines 706-851: the single-mount action phase of
`reconcile_share` (auto-switch enabled).  Failover when the active backend is
not ready, recovery-pending bookkeeping and auto-failback when running on
Fallback, and the initial mount when no backend is active.  Logging is
elided; `last_error` strings follow the formats of the source with the share
name prefix elided. -/
def single_mount_action (o : ReconcileOracle) (g : Globals)
    (tbStatus fbStatus : BackendStatus) (activeB : Option Backend)
    (stability : Option Int) (desired : Option Backend) (now : Int)
    (s : SysState) : SysState × List TraceEntry :=
  match activeB with
  | some active =>
      let active_ready := backend_ready active tbStatus fbStatus
      if !active_ready then
        -- active backend went offline - need to failover
        let other := match active with
          | Backend.tb => Backend.fallback
          | Backend.fallback => Backend.tb
        let other_reachable := match other with
          | Backend.tb => tbStatus.reachable
          | Backend.fallback => fbStatus.reachable
        if other_reachable then
          let r := switch_backend_single_mount o.sw active other false now s
          match r.1 with
          | SwitchResult.success => (r.2.1, r.2.2)
          | SwitchResult.busyOpenFiles =>
              let msg := "failover blocked - open files"
              ({ r.2.1 with entry := { r.2.1.entry with last_error := some msg } },
               r.2.2)
          | SwitchResult.unmountFailed e =>
              let msg := "failover unmount failed: " ++ e
              ({ r.2.1 with entry := { r.2.1.entry with last_error := some msg } },
               r.2.2)
          | SwitchResult.mountFailed _ e =>
              let msg := "failover mount failed: " ++ e
              ({ r.2.1 with entry := { r.2.1.entry with last_error := some msg } },
               r.2.2)
        else (s, [])
      else if active = Backend.fallback && tbStatus.reachable then
        -- on Fallback but TB is reachable
        if !g.auto_failback then
          ({ s with entry := { s.entry with tb_recovery_pending := true } }, [])
        else
          match stability with
          | some since =>
              if g.auto_failback_stable_secs ≤ stable_for now since then
                let r := switch_backend_single_mount o.sw2 Backend.fallback
                           Backend.tb false now s
                match r.1 with
                | SwitchResult.success => (r.2.1, r.2.2)
                | SwitchResult.busyOpenFiles =>
                    -- not recorded as an error - just defer
                    ({ r.2.1 with
                        entry := { r.2.1.entry with tb_recovery_pending := true } },
                     r.2.2)
                | SwitchResult.unmountFailed e =>
                    let msg := "auto-failback unmount failed: " ++ e
                    ({ r.2.1 with
                        entry := { r.2.1.entry with last_error := some msg } },
                     r.2.2)
                | SwitchResult.mountFailed _ e =>
                    let msg := "auto-failback mount failed: " ++ e
                    ({ r.2.1 with
                        entry := { r.2.1.entry with last_error := some msg } },
                     r.2.2)
              else (s, [])
          | none => (s, [])
      else if active = Backend.tb then
        -- on TB and it works - clear any pending flag
        ({ s with entry := { s.entry with tb_recovery_pending := false } }, [])
      else (s, [])
  | none =>
      match desired with
      | some d =>
          -- no active backend - do initial mount (direct `mount_share` call)
          let pre := s.fs
          let post := applyOp (MOp.mountShare d) o.initialMountOk pre
          if pre.isEmpty && o.initialMountOk then
            ({ fs := post,
               symlink := o.initialSymlinkOk || s.symlink,
               entry := { s.entry with
                            active_backend := some d,
                            last_switch_at := some now } },
             [⟨MOp.mountShare d, pre, post⟩])
          else
            ({ s with
                entry := { s.entry with
                             last_error := some ("initial mount failed: " ++ o.initialErr) } },
             [⟨MOp.mountShare d, pre, post⟩])
      | none => (s, [])

/-- `engine.rs` lines 852-891: the dual-mount action phase (no mount-table
operations; it only republishes the stable symlink and commits the entry). -/
def dual_mount_action (tbStatus fbStatus : BackendStatus)
    (activeB desired : Option Backend) (symlinkOk : Bool) (now : Int)
    (s : SysState) : SysState :=
  match desired with
  | some d =>
      if backend_ready d tbStatus fbStatus then
        if symlinkOk then
          { s with
              symlink := true,
              entry := { s.entry with
                           last_switch_at :=
                             if activeB ≠ some d then some now
                             else s.entry.last_switch_at,
                           active_backend := some d,
                           last_error := none } }
        else
          { s with
              entry := { s.entry with
                           last_error := some "failed switching stable path" } }
      else
        { s with entry := { s.entry with active_backend := activeB } }
  | none => { s with entry := { s.entry with active_backend := activeB } }

/-- `engine::reconcile_share`, lines 611-917: one reconcile cycle for a
share.  Probes both backends, updates stability windows, chooses the desired
backend, and acts.  The final `ShareStatus` assembly (lines 896-916) is a
read-only projection and is elided; the returned value is the final state and
the trace of OS mount-table operations. -/
def reconcile_share (g : Globals) (o : ReconcileOracle)
    (attempt_mount auto_switch : Bool) (now : Int) (s : SysState) :
    SysState × List TraceEntry :=
  let detected_active := detect_active_backend s.symlink
  let remembered_active := s.entry.active_backend
  let active_hint := optionOr detected_active remembered_active
  let tbP := probe_backend o.tbProbe Backend.tb attempt_mount active_hint
               g.single_mount_mode s.fs
  let fbP := probe_backend o.fbProbe Backend.fallback attempt_mount active_hint
               g.single_mount_mode tbP.2.1
  let entry1 := update_tb_windows tbP.1 now s.entry
  let activeB := optionOr detected_active entry1.active_backend
  let stability := tb_stability_since entry1
  let desired :=
    if g.single_mount_mode then
      choose_desired_backend_single_mount activeB tbP.1.reachable fbP.1.reachable
        g.auto_failback stability g.auto_failback_stable_secs now
    else
      choose_desired_backend activeB tbP.1.ready fbP.1.ready
        g.auto_failback stability g.auto_failback_stable_secs now
  let s1 : SysState := { fs := fbP.2.1, symlink := s.symlink, entry := entry1 }
  if g.single_mount_mode && auto_switch then
    let a := single_mount_action o g tbP.1 fbP.1 activeB stability desired now s1
    (a.1, tbP.2.2 ++ fbP.2.2 ++ a.2)
  else if !g.single_mount_mode && auto_switch then
    (dual_mount_action tbP.1 fbP.1 activeB desired o.dualSymlinkOk now s1,
     tbP.2.2 ++ fbP.2.2)
  else
    ({ s1 with entry := { entry1 with active_backend := activeB } },
     tbP.2.2 ++ fbP.2.2)

/-! ## `unmount --all` and favorites cleanup -/

/-- `engine::UnmountResult` (the `share` and `mount_point` display strings
are elided). -/
structure UnmountResult where
  backend : Backend
  attempted : Bool
  unmounted : Bool
  busy : Bool
  message : Option String
deriving DecidableEq, Repr

/-- Outcomes of the external operations the per-share `unmount_all` loop
body can perform (one `has_open_handles` probe and one unmount per backend
iteration). -/
structure UnmountOracle where
  openHandlesTb : Bool
  openHandlesFb : Bool
  unmountOkTb : Bool
  unmountOkFb : Bool
  errTb : String
  errFb : String
deriving DecidableEq, Repr

/-- One iteration of the `for backend in [Backend::Tb, Backend::Fallback]`
loop of `engine::unmount_all` (lines 357-404): both iterations act on the
same shared mount path. -/
def unmount_backend_step (openHandles unmountOk : Bool) (err : String)
    (activeB : Option Backend) (b : Backend) (fs : MountList) :
    UnmountResult × MountList × List TraceEntry :=
  let mounted := !fs.isEmpty
  if !mounted then
    (⟨b, false, false, false, none⟩, fs, [])
  else if openHandles then
    (⟨b, true, false, true, some "deferred: open files detected"⟩, fs, [])
  else if activeB = some b then
    -- active backend: graceful unmount
    if unmountOk then
      (⟨b, true, true, false, some "active backend unmounted gracefully"⟩,
       [], [⟨MOp.unmountGraceful, fs, []⟩])
    else
      (⟨b, true, false, false,
        some ("active backend not force-unmounted: " ++ err)⟩,
       fs, [⟨MOp.unmountGraceful, fs, fs⟩])
  else
    -- non-active backend: forced unmount
    if unmountOk then
      (⟨b, true, true, false, none⟩, [], [⟨MOp.unmountForced, fs, []⟩])
    else
      (⟨b, true, false, false, some err⟩, fs, [⟨MOp.unmountForced, fs, fs⟩])

/-- The per-share body of `engine::unmount_all`, lines 354-414: unmount both
backend iterations, then remove the stable symlink if it is a symlink, then
clear `active_backend` and `last_error` in the runtime entry. -/
def unmount_all_share (o : UnmountOracle) (s : SysState) :
    SysState × List UnmountResult × List TraceEntry :=
  let activeB := optionOr (detect_active_backend s.symlink) s.entry.active_backend
  let stepTb := unmount_backend_step o.openHandlesTb o.unmountOkTb o.errTb
                  activeB Backend.tb s.fs
  let stepFb := unmount_backend_step o.openHandlesFb o.unmountOkFb o.errFb
                  activeB Backend.fallback stepTb.2.1
  -- `if is_symlink(&stable) { let _ = fs::remove_file(&stable); }`
  let symlink1 := if s.symlink then false else s.symlink
  ({ fs := stepFb.2.1,
     symlink := symlink1,
     entry := { s.entry with active_backend := none, last_error := none } },
   [stepTb.1, stepFb.1],
   stepTb.2.2 ++ stepFb.2.2)

/-- `engine::unmount_all`, lines 351-417, over the configured shares: each
share carries its own oracle and state. -/
def unmount_all (shares : List (UnmountOracle × SysState)) :
    List (SysState × List UnmountResult × List TraceEntry) :=
  shares.map fun p => unmount_all_share p.1 p.2

/-- `engine::unmount_all_for_share`, lines 558-605: like the `unmount_all`
body but it does not touch the stable symlink and clears only
`active_backend` (not `last_error`). -/
def unmount_all_for_share (o : UnmountOracle) (s : SysState) :
    SysState × List UnmountResult × List TraceEntry :=
  let activeB := optionOr (detect_active_backend s.symlink) s.entry.active_backend
  let stepTb := unmount_backend_step o.openHandlesTb o.unmountOkTb o.errTb
                  activeB Backend.tb s.fs
  let stepFb := unmount_backend_step o.openHandlesFb o.unmountOkFb o.errFb
                  activeB Backend.fallback stepTb.2.1
  ({ fs := stepFb.2.1,
     symlink := s.symlink,
     entry := { s.entry with active_backend := none } },
   [stepTb.1, stepFb.1],
   stepTb.2.2 ++ stepFb.2.2)

/-- `engine::cleanup_removed_share`, lines 526-556: unmount both backends of
the removed share, then remove the stable symlink if it is a symlink (the
affected-alias count and the temporary config are elided; they do not touch
the state modelled here). -/
def cleanup_removed_share (o : UnmountOracle) (s : SysState) :
    SysState × List UnmountResult × List TraceEntry :=
  let u := unmount_all_for_share o s
  let symlink1 := if u.1.symlink then false else u.1.symlink
  ({ u.1 with symlink := symlink1 }, u.2.1, u.2.2)

/-! ## Atomic symlink publication -/

/-- The observable filesystem entry at a link path. -/
inductive LinkState
  | absent
  | symlinkTo (target : String)
  | file
  | dir
deriving DecidableEq, Repr

/-- `Path::exists()` at the link path: follows symlinks, so a symlink counts
only when its target exists. -/
def link_exists : LinkState → Bool → Bool
  | LinkState.absent, _ => false
  | LinkState.symlinkTo _, targetExists => targetExists
  | LinkState.file, _ => true
  | LinkState.dir, _ => true

/-- `symlink_metadata(...).file_type().is_symlink()` at the link path. -/
def link_is_symlink : LinkState → Bool
  | LinkState.symlinkTo _ => true
  | _ => false

/-- `engine::set_symlink_atomically`, lines 1266-1316, as the sequence of
observable states of the link path: parent `create_dir_all` (does not touch
the link), the exists/symlink check, `remove_file` of an existing symlink,
creation of the temp sibling symlink (link path unchanged), and the final
`rename` of the temp symlink over the link path.  `linkTargetExists` is
whether the pre-existing symlink's target exists (it feeds the
`link_path.exists()` test).  The OS calls themselves are assumed to succeed;
the returned list holds the state of the link path after each step. -/
def set_symlink_atomically (target : String) (linkTargetExists : Bool)
    (s0 : LinkState) : Except String Unit × List LinkState :=
  if link_exists s0 linkTargetExists then
    if !link_is_symlink s0 then
      (Except.error "exists and is not a symlink", [s0])
    else
      -- `fs::remove_file(link_path)`: the link path has no entry from here
      -- until the final rename
      (Except.ok (),
       [s0, LinkState.absent, LinkState.absent, LinkState.symlinkTo target])
  else
    -- no removal: temp symlink is created, then renamed over the link path
    (Except.ok (), [s0, s0, LinkState.symlinkTo target])

/-! ## Atomic file saves -/

/-- Contents of one on-disk file in the save model.  `truncated` is a file
that has been created or truncated but whose bytes are not yet fully
written; `written v` holds a complete serialized value `v`. -/
inductive FileContent
  | absent
  | truncated
  | written (v : Nat)
deriving DecidableEq, Repr

/-- The two files a save routine touches: the destination and its temp
sibling. -/
structure SaveFs where
  dest : FileContent
  tmp : FileContent
deriving DecidableEq, Repr

/-- Micro-steps of a save routine.  `fs::write(p, text)` is two steps,
truncate then fill, because a crash can interleave them; `fs::rename` is one
atomic step. -/
inductive SaveStep
  | createDirAll
  | truncateTmp
  | fillTmp (v : Nat)
  | truncateDest
  | fillDest (v : Nat)
  | renameTmpToDest
deriving DecidableEq, Repr

/-- Effect of one save micro-step. -/
def applySave : SaveStep → SaveFs → SaveFs
  | SaveStep.createDirAll, fs => fs
  | SaveStep.truncateTmp, fs => { fs with tmp := FileContent.truncated }
  | SaveStep.fillTmp v, fs => { fs with tmp := FileContent.written v }
  | SaveStep.truncateDest, fs => { fs with dest := FileContent.truncated }
  | SaveStep.fillDest v, fs => { fs with dest := FileContent.written v }
  | SaveStep.renameTmpToDest, fs => { dest := fs.tmp, tmp := FileContent.absent }

/-- Run save micro-steps in order. -/
def runSteps (steps : List SaveStep) (fs : SaveFs) : SaveFs :=
  steps.foldl (fun acc st => applySave st acc) fs

/-- `config::save`, lines 172-187: `create_dir_all(parent)`, write the TOML
text to the `.toml.tmp` sibling, then rename it over `config.toml`. -/
def save_config_steps (v : Nat) : List SaveStep :=
  [SaveStep.createDirAll, SaveStep.truncateTmp, SaveStep.fillTmp v,
   SaveStep.renameTmpToDest]

/-- `engine::save_runtime_state`, lines 103-113: `create_dir_all(parent)`
then `fs::write(&path, text)` directly to the destination - no temp file and
no rename. -/
def save_runtime_state_steps (v : Nat) : List SaveStep :=
  [SaveStep.createDirAll, SaveStep.truncateDest, SaveStep.fillDest v]

/-! ## The open-handles probe -/

/-- Outcome of the `lsof +D <path>` invocation in
`engine::has_open_handles`: either the subprocess could not be spawned, or
it completed with the given stdout bytes. -/
inductive LsofOutcome
  | spawnError
  | completed (stdout : List Nat)
deriving DecidableEq, Repr

/-- `engine::has_open_handles`, lines 1339-1345: nonempty stdout means open
handles; a spawn error is reported as `false`. -/
def has_open_handles : LsofOutcome → Bool
  | LsofOutcome.spawnError => false
  | LsofOutcome.completed stdout => !stdout.isEmpty

/-! ## Helper lemmas -/

theorem singleMount_iff (l : MountList) :
    singleMount l ↔ l = [] ∨ ∃ a, l = [a] := by
  cases l with
  | nil => simp [singleMount]
  | cons a t =>
      cases t with
      | nil => simp [singleMount]
      | cons b u => simp [singleMount]

theorem applyOp_singleMount (op : MOp) (ok : Bool) (s : MountList)
    (h : singleMount s) : singleMount (applyOp op ok s) := by
  cases op <;> simp only [applyOp] <;> split_ifs <;>
    simp_all [singleMount]

/-! ## C2: the desired-backend decision table -/

/-- C2: the single-mount desired-backend decision matches §4.6 Step D for
every input: with no active backend it picks Primary if reachable, else
Fallback if reachable, else none; with active=Primary it stays on Primary
iff Primary is reachable, otherwise desires Fallback; with active=Fallback
it desires Primary iff either Fallback is unreachable and Primary is
reachable, or Primary is reachable and auto-failback is on and the stability
window has elapsed; otherwise it stays on Fallback. -/
theorem choose_desired_backend_single_mount_matches_stepD
    (active : Option Backend) (tb_r fb_r af : Bool) (since : Option Int)
    (secs : Nat) (now : Int) :
    choose_desired_backend_single_mount active tb_r fb_r af since secs now
      = stepD_desired active tb_r fb_r af (stable_elapsed since secs now) := by
  rcases active with _ | b
  · cases tb_r <;> cases fb_r <;>
      simp [choose_desired_backend_single_mount, stepD_desired]
  · cases b
    · cases tb_r <;>
        simp [choose_desired_backend_single_mount, stepD_desired]
    · rcases since with _ | t
      · cases tb_r <;> cases fb_r <;> cases af <;>
          simp [choose_desired_backend_single_mount, stepD_desired,
                stable_elapsed]
      · by_cases h : secs ≤ stable_for now t <;>
          cases tb_r <;> cases fb_r <;> cases af <;>
          simp [choose_desired_backend_single_mount, stepD_desired,
                stable_elapsed, h]

/-! ## C3: the stable symlink across `unmount --all` -/

/-- C3 counterexample: after `unmount_all` on a share whose stable symlink
exists (and whose TB backend is mounted and idle), the stable symlink is
gone - it is not preserved across unmounts. -/
theorem unmount_all_removes_stable_symlink_cex :
    (⟨[Backend.tb], true,
       { active_backend := some Backend.tb }⟩ : SysState).symlink = true
    ∧ (unmount_all
         [(⟨false, false, true, true, "e1", "e2"⟩,
           ⟨[Backend.tb], true, { active_backend := some Backend.tb }⟩)]).map
         (fun r => r.1.symlink) = [false] := by
  exact ⟨rfl, rfl⟩

/-- C3 amended: `unmount --all` removes each configured share's stable
symlink (whenever it is a symlink) and clears `active_backend` and
`last_error`; `favorites remove --cleanup` also removes the stable
symlink. -/
theorem unmount_all_deletes_stable_symlink
    (shares : List (UnmountOracle × SysState)) (o : UnmountOracle)
    (s : SysState) :
    (unmount_all shares).map
        (fun r => (r.1.symlink, r.1.entry.active_backend, r.1.entry.last_error))
      = shares.map (fun _ => (false, (none : Option Backend), (none : Option String)))
    ∧ (cleanup_removed_share o s).1.symlink = false := by
  constructor
  · induction shares with
    | nil => rfl
    | cons p rest ih =>
        simp only [unmount_all, List.map_cons] at *
        refine congrArg₂ _ ?_ ih
        cases hs : p.2.symlink <;>
          simp [unmount_all_share, hs]
  · cases hs : s.symlink <;>
      simp [cleanup_removed_share, unmount_all_for_share, hs]

/-! ## C7 and C8: symlink publication -/

/-- C7 counterexample: publishing a new target over an existing valid
symlink succeeds but passes through a state in which no link exists at the
link path (the code removes the old symlink before creating and renaming the
temp sibling), so the link path does not always resolve to the old or new
target. -/
theorem publish_no_link_window_cex :
    (set_symlink_atomically "new" true (LinkState.symlinkTo "old")).1
      = Except.ok ()
    ∧ LinkState.absent ∈
        (set_symlink_atomically "new" true (LinkState.symlinkTo "old")).2 := by
  constructor
  · rfl
  · simp [set_symlink_atomically, link_exists, link_is_symlink]

/-- C7 amended: during a publish over an absent link path or an existing
symlink, every observable state of the link path is the original state, the
no-link state, or the new symlink; the final state is the new symlink.  The
no-link window arises because an existing symlink whose target exists is
removed before the temp-sibling rename. -/
theorem publish_states_old_absent_new (target : String) (tex : Bool)
    (s0 : LinkState) (h : s0 = LinkState.absent ∨ link_is_symlink s0 = true) :
    (set_symlink_atomically target tex s0).1 = Except.ok ()
    ∧ (set_symlink_atomically target tex s0).2.getLast?
        = some (LinkState.symlinkTo target)
    ∧ ∀ st ∈ (set_symlink_atomically target tex s0).2,
        st = s0 ∨ st = LinkState.absent ∨ st = LinkState.symlinkTo target := by
  rcases s0 with _ | t | _ | _
  · refine ⟨rfl, rfl, ?_⟩
    intro st hst
    simp [set_symlink_atomically, link_exists] at hst
    tauto
  · cases tex
    · refine ⟨rfl, rfl, ?_⟩
      intro st hst
      simp [set_symlink_atomically, link_exists] at hst
      tauto
    · refine ⟨rfl, rfl, ?_⟩
      intro st hst
      simp [set_symlink_atomically, link_exists, link_is_symlink] at hst
      tauto
  · simp [link_is_symlink] at h
  · simp [link_is_symlink] at h

/-- C7 amended witness. -/
theorem publish_states_old_absent_new_witness :
    ((LinkState.symlinkTo "old" = LinkState.absent
        ∨ link_is_symlink (LinkState.symlinkTo "old") = true)
    ∧ (set_symlink_atomically "new" true (LinkState.symlinkTo "old")).1
        = Except.ok ()) := by
  have h : LinkState.symlinkTo "old" = LinkState.absent
      ∨ link_is_symlink (LinkState.symlinkTo "old") = true := Or.inr rfl
  exact ⟨h, (publish_states_old_absent_new "new" true
    (LinkState.symlinkTo "old") h).1⟩

/-- C8: publish never overwrites a non-symlink: when the link path holds a
regular file or a directory, `set_symlink_atomically` returns an error and
the link path is left untouched (the trace contains only the initial
state). -/
theorem publish_never_overwrites_non_symlink (target : String) (tex : Bool)
    (s0 : LinkState) (h : s0 = LinkState.file ∨ s0 = LinkState.dir) :
    set_symlink_atomically target tex s0
      = (Except.error "exists and is not a symlink", [s0]) := by
  rcases h with h | h <;> subst h <;> rfl

/-- C8 witness. -/
theorem publish_never_overwrites_non_symlink_witness :
    ((LinkState.file = LinkState.file ∨ LinkState.file = LinkState.dir)
    ∧ set_symlink_atomically "t" true LinkState.file
        = (Except.error "exists and is not a symlink", [LinkState.file])) :=
  ⟨Or.inl rfl,
   publish_never_overwrites_non_symlink "t" true LinkState.file (Or.inl rfl)⟩

/-! ## C9: atomic file saves -/

/-- C9 counterexample: the runtime-state save has no temp-and-rename step;
crashing after its truncate step leaves the state file truncated, holding
neither the previous nor the new contents. -/
theorem save_runtime_state_not_atomic_cex :
    (runSteps ((save_runtime_state_steps 2).take 2)
       ⟨FileContent.written 1, FileContent.absent⟩).dest
      = FileContent.truncated
    ∧ SaveStep.renameTmpToDest ∉ save_runtime_state_steps 2 := by
  exact ⟨rfl, by decide⟩

/-- C9 amended: the config save writes a temp file in the same directory and
renames it over the destination, so any crash prefix leaves the destination
holding the old or the new contents; the runtime-state save writes the
destination directly (`create_dir_all` then `fs::write`), with no temp file
and no rename, and a crash between its truncate and fill steps leaves the
destination truncated. -/
theorem save_config_atomic_save_state_direct (v old n : Nat) :
    ((runSteps ((save_config_steps v).take n)
        ⟨FileContent.written old, FileContent.absent⟩).dest
          = FileContent.written old
      ∨ (runSteps ((save_config_steps v).take n)
          ⟨FileContent.written old, FileContent.absent⟩).dest
          = FileContent.written v)
    ∧ (runSteps (save_runtime_state_steps v)
        ⟨FileContent.written old, FileContent.absent⟩).dest
        = FileContent.written v
    ∧ SaveStep.renameTmpToDest ∉ save_runtime_state_steps v
    ∧ (runSteps ((save_runtime_state_steps v).take 2)
        ⟨FileContent.written old, FileContent.absent⟩).dest
        = FileContent.truncated := by
  refine ⟨?_, rfl, by simp [save_runtime_state_steps], rfl⟩
  rcases n with _ | _ | _ | _ | n <;>
    simp [runSteps, save_config_steps, applySave, List.take]

/-! ## C4, C5, C6: the switch protocol -/

/-- C4 counterexample: a switch whose target mount fails performs exactly one
mount attempt of the target and then immediately attempts the rollback
remount of the previous backend - there is no second (retry) attempt of the
target before the rollback. -/
theorem switch_no_mount_retry_cex :
    (switch_backend_single_mount ⟨false, true, false, true, true, true, "u", "m"⟩
       Backend.tb Backend.fallback false 5
       ⟨[Backend.tb], true, {}⟩).1 = SwitchResult.mountFailed true "m"
    ∧ mountAttempts
        (switch_backend_single_mount ⟨false, true, false, true, true, true, "u", "m"⟩
          Backend.tb Backend.fallback false 5 ⟨[Backend.tb], true, {}⟩).2.2
        = [Backend.fallback, Backend.tb]
    ∧ (mountAttempts
        (switch_backend_single_mount ⟨false, true, false, true, true, true, "u", "m"⟩
          Backend.tb Backend.fallback false 5 ⟨[Backend.tb], true, {}⟩).2.2).count
        Backend.fallback = 1 := by
  refine ⟨rfl, rfl, rfl⟩

/-- C4 amended: when mounting the target backend fails, the switch does not
retry the mount; the rollback remount of the previous backend is attempted
immediately, so the mount attempts of a failed switch are exactly one attempt
of the target followed by one rollback attempt of the previous backend. -/
theorem switch_mount_failure_no_retry (o : SwitchOracle) (fromB toB : Backend)
    (force : Bool) (now : Int) (s : SysState) (rb : Bool) (err : String)
    (h : (switch_backend_single_mount o fromB toB force now s).1
          = SwitchResult.mountFailed rb err) :
    mountAttempts (switch_backend_single_mount o fromB toB force now s).2.2
      = [toB, fromB] := by
  unfold switch_backend_single_mount at h ⊢
  split_ifs at h ⊢ <;>
    simp_all [mountAttempts, List.filterMap_append]

/-- C4 amended witness. -/
theorem switch_mount_failure_no_retry_witness :
    ((switch_backend_single_mount ⟨false, true, false, false, true, true, "u", "m"⟩
        Backend.tb Backend.fallback true 5 ⟨[Backend.tb], true, {}⟩).1
      = SwitchResult.mountFailed false "m")
    ∧ mountAttempts
        (switch_backend_single_mount ⟨false, true, false, false, true, true, "u", "m"⟩
          Backend.tb Backend.fallback true 5 ⟨[Backend.tb], true, {}⟩).2.2
        = [Backend.fallback, Backend.tb] :=
  ⟨rfl,
   switch_mount_failure_no_retry ⟨false, true, false, false, true, true, "u", "m"⟩
     Backend.tb Backend.fallback true 5 ⟨[Backend.tb], true, {}⟩ false "m" rfl⟩

/-- C5 counterexample: when the target mount fails and the rollback also
fails, the switch returns `MountFailed` with `rolled_back = false` carrying
only the mount error, but `active_backend` is not cleared and `last_error`
is not set - the runtime entry is untouched. -/
theorem switch_rollback_failure_cex :
    (switch_backend_single_mount ⟨false, true, false, false, true, true, "u", "m"⟩
       Backend.tb Backend.fallback false 5
       ⟨[Backend.tb], true, { active_backend := some Backend.tb }⟩).1
      = SwitchResult.mountFailed false "m"
    ∧ (switch_backend_single_mount ⟨false, true, false, false, true, true, "u", "m"⟩
        Backend.tb Backend.fallback false 5
        ⟨[Backend.tb], true, { active_backend := some Backend.tb }⟩).2.1.entry.active_backend
      = some Backend.tb
    ∧ (switch_backend_single_mount ⟨false, true, false, false, true, true, "u", "m"⟩
        Backend.tb Backend.fallback false 5
        ⟨[Backend.tb], true, { active_backend := some Backend.tb }⟩).2.1.entry.last_error
      = none := by
  refine ⟨rfl, rfl, rfl⟩

/-- C5 amended: when the target mount fails and the rollback remount also
fails, the switch returns `MountFailed` with `rolled_back = false` and the
mount error; the share's runtime entry (including `active_backend` and
`last_error`) is left unchanged, and `cmd_switch` does not persist runtime
state in this case. -/
theorem switch_rollback_failure_state (o : SwitchOracle) (fromB toB : Backend)
    (force : Bool) (now : Int) (s : SysState) (err : String)
    (h : (switch_backend_single_mount o fromB toB force now s).1
          = SwitchResult.mountFailed false err) :
    (switch_backend_single_mount o fromB toB force now s).2.1.entry = s.entry
    ∧ err = o.mountErr
    ∧ cmd_switch_saves_state
        (switch_backend_single_mount o fromB toB force now s).1 = false := by
  unfold switch_backend_single_mount at h ⊢
  split_ifs at h ⊢ <;>
    simp_all [cmd_switch_saves_state]

/-- C5 amended witness. -/
theorem switch_rollback_failure_state_witness :
    ((switch_backend_single_mount ⟨false, true, false, false, true, true, "u", "m"⟩
        Backend.tb Backend.fallback false 5
        ⟨[Backend.tb], true, { active_backend := some Backend.tb }⟩).1
      = SwitchResult.mountFailed false "m")
    ∧ ((switch_backend_single_mount ⟨false, true, false, false, true, true, "u", "m"⟩
         Backend.tb Backend.fallback false 5
         ⟨[Backend.tb], true, { active_backend := some Backend.tb }⟩).2.1.entry
        = ({ active_backend := some Backend.tb } : ShareRuntimeState)) :=
  ⟨rfl,
   (switch_rollback_failure_state ⟨false, true, false, false, true, true, "u", "m"⟩
      Backend.tb Backend.fallback false 5
      ⟨[Backend.tb], true, { active_backend := some Backend.tb }⟩ "m" rfl).1⟩

/-- C6: a switch invoked with `force = false` while the current mount has
open file handles returns `BusyOpenFiles`, performs no unmount and no mount
(the operation trace is empty), leaves the whole state - including
`active_backend`, `last_switch_at` and `last_error` - unchanged, and
`cmd_switch` does not persist runtime state. -/
theorem switch_busy_denial (o : SwitchOracle) (fromB toB : Backend)
    (now : Int) (s : SysState) (hm : s.fs ≠ []) (hh : o.openHandles = true) :
    switch_backend_single_mount o fromB toB false now s
      = (SwitchResult.busyOpenFiles, s, [])
    ∧ cmd_switch_saves_state
        (switch_backend_single_mount o fromB toB false now s).1 = false := by
  have hfs : s.fs.isEmpty = false := by
    cases hl : s.fs with
    | nil => exact absurd hl hm
    | cons a t => rfl
  constructor
  · simp [switch_backend_single_mount, hfs, hh]
  · simp [switch_backend_single_mount, hfs, hh, cmd_switch_saves_state]

/-- C6 witness. -/
theorem switch_busy_denial_witness :
    (([Backend.tb] : MountList) ≠ []
    ∧ (⟨true, true, true, true, true, true, "u", "m"⟩ : SwitchOracle).openHandles = true)
    ∧ switch_backend_single_mount ⟨true, true, true, true, true, true, "u", "m"⟩
        Backend.tb Backend.fallback false 5
        ⟨[Backend.tb], true, { active_backend := some Backend.tb }⟩
      = (SwitchResult.busyOpenFiles,
         ⟨[Backend.tb], true, { active_backend := some Backend.tb }⟩, []) :=
  ⟨⟨by decide, rfl⟩,
   (switch_busy_denial ⟨true, true, true, true, true, true, "u", "m"⟩
      Backend.tb Backend.fallback 5
      ⟨[Backend.tb], true, { active_backend := some Backend.tb }⟩
      (by decide) rfl).1⟩

/-! ## C10: the open-handles guard fails open -/

/-- C10: if spawning `lsof` fails, `has_open_handles` returns `false`, so a
`force = false` switch never returns `BusyOpenFiles` and the `unmount --all`
loop never marks a share busy - the guard fails open and the operations
proceed. -/
theorem has_open_handles_fails_open :
    has_open_handles LsofOutcome.spawnError = false
    ∧ (∀ (o : SwitchOracle) (fromB toB : Backend) (now : Int) (s : SysState),
        o.openHandles = has_open_handles LsofOutcome.spawnError →
        (switch_backend_single_mount o fromB toB false now s).1 ≠
          SwitchResult.busyOpenFiles)
    ∧ (∀ (uo : UnmountOracle) (s : SysState),
        uo.openHandlesTb = has_open_handles LsofOutcome.spawnError →
        uo.openHandlesFb = has_open_handles LsofOutcome.spawnError →
        ∀ r ∈ (unmount_all_share uo s).2.1, r.busy = false) := by
  have hstep : ∀ (ok : Bool) (err : String) (a : Option Backend) (b : Backend)
      (fs : MountList), (unmount_backend_step false ok err a b fs).1.busy = false := by
    intro ok err a b fs
    cases fs <;> unfold unmount_backend_step <;> split_ifs <;> simp_all
  refine ⟨rfl, ?_, ?_⟩
  · intro o fromB toB now s h
    simp only [has_open_handles] at h
    unfold switch_backend_single_mount
    simp only [h, Bool.and_false, Bool.false_eq_true, if_false]
    split_ifs <;> simp
  · intro uo s htb hfb r hr
    simp only [has_open_handles] at htb hfb
    simp only [unmount_all_share, List.mem_cons, List.mem_singleton,
      List.not_mem_nil, or_false] at hr
    rcases hr with hr | hr <;> subst hr <;>
      simp only [htb, hfb, hstep]

/-- C10 witness. -/
theorem has_open_handles_fails_open_witness :
    ((⟨false, true, true, true, true, true, "u", "m"⟩ : SwitchOracle).openHandles
      = has_open_handles LsofOutcome.spawnError)
    ∧ (switch_backend_single_mount ⟨false, true, true, true, true, true, "u", "m"⟩
        Backend.tb Backend.fallback false 0
        ⟨[Backend.tb], true, {}⟩).1 ≠ SwitchResult.busyOpenFiles :=
  ⟨rfl,
   has_open_handles_fails_open.2.1 ⟨false, true, true, true, true, true, "u", "m"⟩
     Backend.tb Backend.fallback 0 ⟨[Backend.tb], true, {}⟩ rfl⟩

/-! ## C1: the single-mount invariant -/

theorem switch_trace_entries (o : SwitchOracle) (fromB toB : Backend)
    (force : Bool) (now : Int) (s : SysState) (h : singleMount s.fs) :
    ∀ e ∈ (switch_backend_single_mount o fromB toB force now s).2.2,
      (singleMount e.pre ∧ singleMount e.post)
      ∧ ∀ b, e.op = MOp.mountShare b → e.pre = [] := by
  intro e he
  rcases (singleMount_iff s.fs).mp h with hfs | ⟨a, hfs⟩ <;>
    cases force <;> cases ho : o.openHandles <;> cases hu : o.unmountOk <;>
    cases hmk : o.mountOk <;> cases hrb : o.rollbackOk <;>
    simp only [switch_backend_single_mount, hfs, ho, hu, hmk, hrb] at he <;>
    simp at he <;>
    first
      | exact he.elim
      | (rcases he with rfl | rfl | rfl <;> simp [singleMount])

theorem probe_backend_fs_trace (po : ProbeOracle) (b : Backend) (am : Bool)
    (ab : Option Backend) (smm : Bool) (fs0 : MountList)
    (h : singleMount fs0) :
    singleMount (probe_backend po b am ab smm fs0).2.1
    ∧ ∀ e ∈ (probe_backend po b am ab smm fs0).2.2,
        singleMount e.pre ∧ singleMount e.post := by
  rcases (singleMount_iff fs0).mp h with hfs | ⟨a, hfs⟩ <;> subst hfs <;>
    by_cases hab : ab = some b <;>
    cases hr : po.reachable <;> cases hai : po.aliveInitial <;>
    cases hsu : po.staleUnmountOk <;> cases hmk : po.mountOk <;>
    cases hsm : (if smm then
        am && (decide (ab = none) || decide (ab = some b))
      else am) <;>
    simp only [probe_backend, hr, hai, hsu, hmk, hsm, applyOp] <;>
    simp [singleMount, List.forall_mem_cons, hab, applyOp]

theorem single_mount_action_trace (o : ReconcileOracle) (g : Globals)
    (tbS fbS : BackendStatus) (activeB : Option Backend) (stab : Option Int)
    (desired : Option Backend) (now : Int) (s : SysState)
    (h : singleMount s.fs) :
    ∀ e ∈ (single_mount_action o g tbS fbS activeB stab desired now s).2,
      singleMount e.pre ∧ singleMount e.post := by
  intro e he
  rcases activeB with _ | active
  · rcases desired with _ | d
    · simp [single_mount_action] at he
    · simp only [single_mount_action] at he
      split at he <;>
        (simp only [List.mem_singleton] at he; subst he;
         exact ⟨h, applyOp_singleMount (MOp.mountShare d) o.initialMountOk s.fs h⟩)
  · cases active
    case tb =>
      simp only [single_mount_action, backend_ready] at he
      cases h1 : tbS.ready
      case false =>
        cases h2 : fbS.reachable
        case false => simp [h1, h2] at he
        case true =>
          simp only [h1, h2, Bool.not_false, if_true] at he
          rcases hsw : (switch_backend_single_mount o.sw Backend.tb
              Backend.fallback false now s).1 <;>
            simp [hsw] at he <;>
            exact (switch_trace_entries o.sw Backend.tb Backend.fallback
              false now s h e he).1
      case true => simp [h1] at he
    case fallback =>
      simp only [single_mount_action, backend_ready] at he
      cases h1 : fbS.ready
      case false =>
        cases h2 : tbS.reachable
        case false => simp [h1, h2] at he
        case true =>
          simp only [h1, h2, Bool.not_false, if_true] at he
          rcases hsw : (switch_backend_single_mount o.sw Backend.fallback
              Backend.tb false now s).1 <;>
            simp [hsw] at he <;>
            exact (switch_trace_entries o.sw Backend.fallback Backend.tb
              false now s h e he).1
      case true =>
        cases h2 : tbS.reachable
        case false => simp [h1, h2] at he
        case true =>
          cases h3 : g.auto_failback
          case false => simp [h1, h2, h3] at he
          case true =>
            rcases stab with _ | since
            · simp [h1, h2, h3] at he
            · by_cases h4 : g.auto_failback_stable_secs ≤ stable_for now since
              · simp only [h1, h2, h3, Bool.not_true, Bool.false_eq_true,
                  if_false, decide_True, Bool.true_and, if_true, h4] at he
                rcases hsw : (switch_backend_single_mount o.sw2 Backend.fallback
                    Backend.tb false now s).1 <;>
                  simp [hsw] at he <;>
                  exact (switch_trace_entries o.sw2 Backend.fallback Backend.tb
                    false now s h e he).1
              · simp [h1, h2, h3, h4] at he

theorem reconcile_share_trace (g : Globals) (o : ReconcileOracle)
    (am asw : Bool) (now : Int) (s : SysState) (h : singleMount s.fs) :
    ∀ e ∈ (reconcile_share g o am asw now s).2,
      singleMount e.pre ∧ singleMount e.post := by
  intro e he
  have htb := probe_backend_fs_trace o.tbProbe Backend.tb am
      (optionOr (detect_active_backend s.symlink) s.entry.active_backend)
      g.single_mount_mode s.fs h
  have hfb := probe_backend_fs_trace o.fbProbe Backend.fallback am
      (optionOr (detect_active_backend s.symlink) s.entry.active_backend)
      g.single_mount_mode
      (probe_backend o.tbProbe Backend.tb am
        (optionOr (detect_active_backend s.symlink) s.entry.active_backend)
        g.single_mount_mode s.fs).2.1 htb.1
  unfold reconcile_share at he
  split_ifs at he <;>
    simp only [List.mem_append, or_assoc] at he <;>
    first
      | (rcases he with he | he | he
         · exact htb.2 e he
         · exact hfb.2 e he
         · exact single_mount_action_trace _ _ _ _ _ _ _ _ _ hfb.1 e he)
      | (rcases he with he | he
         · exact htb.2 e he
         · exact hfb.2 e he)

/-- C1: the single-mount invariant.  At every step of the switch protocol
and of a reconcile cycle, at most one backend is mounted at the share's
single mount path (given at most one was mounted initially); and the switch
protocol issues every `mount_share` on an empty mount table - the target is
never mounted before the currently mounted backend has been successfully
unmounted. -/
theorem single_mount_invariant (o : SwitchOracle) (g : Globals)
    (ro : ReconcileOracle) (fromB toB : Backend)
    (force attempt_mount auto_switch : Bool) (now : Int) (s : SysState)
    (h : singleMount s.fs) :
    (∀ e ∈ (switch_backend_single_mount o fromB toB force now s).2.2,
        singleMount e.pre ∧ singleMount e.post)
    ∧ (∀ e ∈ (switch_backend_single_mount o fromB toB force now s).2.2,
        ∀ b, e.op = MOp.mountShare b → e.pre = [])
    ∧ (∀ e ∈ (reconcile_share g ro attempt_mount auto_switch now s).2,
        singleMount e.pre ∧ singleMount e.post) :=
  ⟨fun e he => (switch_trace_entries o fromB toB force now s h e he).1,
   fun e he => (switch_trace_entries o fromB toB force now s h e he).2,
   reconcile_share_trace g ro attempt_mount auto_switch now s h⟩

/-- C1 witness. -/
theorem single_mount_invariant_witness :
    singleMount ([Backend.tb] : MountList)
    ∧ (singleMount
        (⟨MOp.unmountGraceful, [Backend.tb], []⟩ : TraceEntry).pre
      ∧ singleMount
         (⟨MOp.unmountGraceful, [Backend.tb], []⟩ : TraceEntry).post) := by
  refine ⟨by simp [singleMount], ?_⟩
  exact (single_mount_invariant ⟨false, true, true, true, true, true, "u", "m"⟩
      ⟨false, 30, true⟩
      ⟨⟨true, true, true, true, true, false, true, "se", "me"⟩,
       ⟨true, true, true, true, true, false, true, "se", "me"⟩,
       ⟨false, true, true, true, true, true, "u", "m"⟩,
       ⟨false, true, true, true, true, true, "u", "m"⟩,
       true, true, "ie", true⟩
      Backend.tb Backend.fallback false true true 0
      ⟨[Backend.tb], true, { active_backend := some Backend.tb }⟩
      (by simp [singleMount])).1
    ⟨MOp.unmountGraceful, [Backend.tb], []⟩ (by decide)

end Mountaineer
